import Mathlib

/-!
Shallow embedding of the trip-combination optimizers of the flight-search
tool, covering the four optimizer modules:

* `TripFinderRoot`    — `trip_finder.py` (4-segment chain, class `TripOptimizer`)
* `TripFinderPkg`     — `trip_finder/trip_finder.py` (2- or 3-segment chain)
* `RoundTripRoot`     — `trip_finder_roundtrip.py` (pair of round trips)
* `RoundTripPkg`      — `trip_finder/trip_finder_roundtrip.py` (one or two round trips)

Encoding conventions:

* Calendar dates (`YYYY-MM-DD` strings parsed with `datetime.strptime` in the
  source) are embedded as integers counting days, so `<` on dates becomes `<`
  on `Int` and `(d2 - d1).days` becomes `d2 - d1`.  The optimizers only ever
  compare dates and subtract them, so any order- and difference-preserving
  encoding is faithful.  In concrete test inputs, a date in February 2026 is
  encoded by its day-of-year index (`2026-02-05` ↦ 36, `2026-02-10` ↦ 41,
  `2026-02-21` ↦ 52, `2026-02-26` ↦ 57).
* Prices are embedded as rationals; the optimizers apply no arithmetic other
  than addition of the constituent prices.
* Python's `list.sort(key=...)` is a stable sort by the key.  A stable sort by
  a total key is uniquely determined (permutation + sorted by key + equal keys
  keep their relative order), so it is embedded as the insertion sort
  `sortByKey` below, which is proved sorted, permutation-preserving and stable.
* Python's slice `l[:n]` is embedded as `pySlice`, including its semantics for
  negative `n` (count from the end, clamped at zero).
-/

/-- One priced, directed flight segment (dataclass `Flight` of
`google_flights_scraper.py`).  The date is pre-parsed to an integer day
number; descriptive fields are carried but never inspected by the optimizer. -/
structure Flight where
  origin : String
  destination : String
  departure_date : Int
  price : ℚ
  airline : String
  departure_time : String
  arrival_time : String
  duration : String
  stops : Nat
  url : String
deriving DecidableEq

/-- One priced outbound+return pair (dataclass `RoundTripFlight` of
`google_flights_scraper.py`), with both dates pre-parsed to integer day
numbers. -/
structure RoundTripFlight where
  origin : String
  destination : String
  outbound_date : Int
  return_date : Int
  total_price : ℚ
  outbound_airline : String
  return_airline : String
  outbound_departure_time : String
  outbound_arrival_time : String
  outbound_duration : String
  outbound_stops : Nat
  return_departure_time : String
  return_arrival_time : String
  return_duration : String
  return_stops : Nat
  url : String
deriving DecidableEq

/-- Price of a 5-tuple combination (segment-chain searches): the last
component, mirroring `key=lambda x: x[4]` in the source. -/
def price5 {A B C D : Type} (c : A × B × C × D × ℚ) : ℚ := c.2.2.2.2

/-- Price of a 3-tuple combination (round-trip searches): the last component,
mirroring `key=lambda x: x[2]` in the source. -/
def price3 {A B : Type} (c : A × B × ℚ) : ℚ := c.2.2

/-- Price of an optional flight record; an absent record contributes nothing. -/
def optFlightPrice : Option Flight → ℚ
  | none => 0
  | some f => f.price

/-- Price of an optional round-trip record; an absent record contributes
nothing. -/
def optRTPrice : Option RoundTripFlight → ℚ
  | none => 0
  | some rt => rt.total_price

/-- Insert `x` into `l` immediately before the first element whose key is not
smaller than the key of `x`.  This is the unique placement of a stable sort:
among equal keys, the inserted element (which originated earlier in the input)
comes first. -/
def insertByKey {α : Type} (key : α → ℚ) (x : α) : List α → List α
  | [] => [x]
  | y :: ys => if key x ≤ key y then x :: y :: ys else y :: insertByKey key x ys

/-- Stable sort by a rational-valued key; the embedding of Python's
`list.sort(key=...)`. -/
def sortByKey {α : Type} (key : α → ℚ) : List α → List α
  | [] => []
  | x :: xs => insertByKey key x (sortByKey key xs)

/-- Python's slice `l[:n]`: for `0 ≤ n` the first `n` elements; for negative
`n` everything but the last `-n` elements (clamped at the empty list). -/
def pySlice {α : Type} (n : Int) (l : List α) : List α :=
  l.take (if 0 ≤ n then n.toNat else ((l.length : Int) + n).toNat)

theorem mem_insertByKey {α : Type} {key : α → ℚ} {x a : α} :
    ∀ {l : List α}, a ∈ insertByKey key x l ↔ a = x ∨ a ∈ l := by
  intro l
  induction l with
  | nil => simp [insertByKey]
  | cons y ys ih =>
    by_cases h : key x ≤ key y
    · simp [insertByKey, h]
    · simp only [insertByKey, if_neg h, List.mem_cons, ih]
      tauto

theorem mem_sortByKey {α : Type} {key : α → ℚ} {a : α} :
    ∀ {l : List α}, a ∈ sortByKey key l ↔ a ∈ l := by
  intro l
  induction l with
  | nil => simp [sortByKey]
  | cons y ys ih => simp [sortByKey, mem_insertByKey, ih]

theorem length_insertByKey {α : Type} (key : α → ℚ) (x : α) :
    ∀ l : List α, (insertByKey key x l).length = l.length + 1 := by
  intro l
  induction l with
  | nil => rfl
  | cons y ys ih =>
    by_cases h : key x ≤ key y
    · simp [insertByKey, h]
    · simp [insertByKey, h, ih]

theorem length_sortByKey {α : Type} (key : α → ℚ) :
    ∀ l : List α, (sortByKey key l).length = l.length := by
  intro l
  induction l with
  | nil => rfl
  | cons y ys ih => simp [sortByKey, length_insertByKey, ih]

theorem pairwise_insertByKey {α : Type} {key : α → ℚ} {x : α} :
    ∀ {l : List α}, l.Pairwise (fun a b => key a ≤ key b) →
      (insertByKey key x l).Pairwise (fun a b => key a ≤ key b) := by
  intro l
  induction l with
  | nil => intro _; simp [insertByKey]
  | cons y ys ih =>
    intro h
    rcases List.pairwise_cons.mp h with ⟨hy, hys⟩
    simp only [insertByKey]
    by_cases hxy : key x ≤ key y
    · rw [if_pos hxy]
      refine List.pairwise_cons.mpr ⟨?_, h⟩
      intro b hb
      rcases List.mem_cons.mp hb with rfl | hb
      · exact hxy
      · exact le_trans hxy (hy b hb)
    · rw [if_neg hxy]
      refine List.pairwise_cons.mpr ⟨?_, ih hys⟩
      intro b hb
      rcases mem_insertByKey.mp hb with rfl | hb
      · exact le_of_lt (lt_of_not_le hxy)
      · exact hy b hb

theorem pairwise_sortByKey {α : Type} (key : α → ℚ) :
    ∀ l : List α, (sortByKey key l).Pairwise (fun a b => key a ≤ key b) := by
  intro l
  induction l with
  | nil => simp [sortByKey]
  | cons y ys ih => exact pairwise_insertByKey ih

/-- Stability of the insertion step, expressed through `filter`: the elements
of a fixed price class are exactly the old ones, with the inserted element (if
it belongs to the class) in front. -/
theorem filter_insertByKey {α : Type} (key : α → ℚ) (p : ℚ) (x : α) :
    ∀ l : List α, (insertByKey key x l).filter (fun a => key a = p) =
      if key x = p then x :: l.filter (fun a => key a = p)
      else l.filter (fun a => key a = p) := by
  intro l
  induction l with
  | nil => by_cases hx : key x = p <;> simp [insertByKey, hx]
  | cons y ys ih =>
    simp only [insertByKey]
    by_cases hxy : key x ≤ key y
    · rw [if_pos hxy]
      by_cases hx : key x = p <;> simp [List.filter_cons, hx]
    · rw [if_neg hxy]
      have hyx : key y < key x := lt_of_not_le hxy
      by_cases hx : key x = p
      · have hy : ¬ (key y = p) := by
          intro hy; rw [hy, ← hx] at hyx; exact lt_irrefl _ hyx
        simp [List.filter_cons, hy, ih, hx]
      · simp [List.filter_cons, ih, hx]

/-- Stability of `sortByKey`: within each price class, the sorted list keeps
exactly the elements of the input list, in input order. -/
theorem filter_sortByKey {α : Type} (key : α → ℚ) (p : ℚ) :
    ∀ l : List α, (sortByKey key l).filter (fun a => key a = p) =
      l.filter (fun a => key a = p) := by
  intro l
  induction l with
  | nil => rfl
  | cons y ys ih =>
    by_cases hy : key y = p <;>
      simp [sortByKey, filter_insertByKey, List.filter_cons, hy, ih]

theorem pySlice_sublist {α : Type} (n : Int) (l : List α) :
    List.Sublist (pySlice n l) l :=
  List.take_sublist _ _

theorem pySlice_isPrefix {α : Type} (n : Int) (l : List α) : pySlice n l <+: l :=
  List.take_prefix _ _

theorem pySlice_nonneg {α : Type} {n : Int} (l : List α) (h : 0 ≤ n) :
    pySlice n l = l.take n.toNat := by
  simp [pySlice, h]

theorem pySlice_zero {α : Type} (l : List α) : pySlice 0 l = [] := by
  simp [pySlice]

theorem pySlice_neg {α : Type} {n : Int} (l : List α) (h : n < 0) :
    pySlice n l = l.take ((l.length : Int) + n).toNat := by
  have hn : ¬ (0 ≤ n) := not_le.mpr h
  simp [pySlice, hn]

theorem pySlice_of_length_le {α : Type} {n : Int} (l : List α)
    (h : (l.length : Int) ≤ n) : pySlice n l = l := by
  have h0 : 0 ≤ n := le_trans (Int.ofNat_nonneg _) h
  rw [pySlice_nonneg l h0]
  exact List.take_of_length_le (by omega)

/-- The filter of a prefix is a prefix of the filter. -/
theorem filter_isPrefix_of_isPrefix {α : Type} {l₁ l₂ : List α} (P : α → Bool)
    (h : l₁ <+: l₂) : l₁.filter P <+: l₂.filter P := by
  rcases h with ⟨t, rfl⟩
  exact ⟨t.filter P, by simp [List.filter_append]⟩

/-! ### `trip_finder.py` (repository root): 4-segment chain optimizer -/

namespace TripFinderRoot

/-- Configuration of class `TripOptimizer` in `trip_finder.py`: the two
minimum-stay thresholds, set at construction. -/
structure TripOptimizer where
  min_stopover1_days : Int
  min_stopover2_days : Int
deriving DecidableEq

/-- Embedding of `TripOptimizer.validate_dates` of `trip_finder.py`
(lines 23-46): four dates must be strictly increasing, the first gap at least
`min_stopover1_days`, the second gap at least `min_stopover2_days`; the third
gap is not checked against any threshold. -/
def TripOptimizer.validate_dates (self : TripOptimizer)
    (seg1_date seg2_date seg3_date seg4_date : Int) : Bool :=
  if ¬ (seg1_date < seg2_date ∧ seg2_date < seg3_date ∧ seg3_date < seg4_date) then
    false
  else if seg2_date - seg1_date < self.min_stopover1_days then
    false
  else if seg3_date - seg2_date < self.min_stopover2_days then
    false
  else
    true

/-- The `valid_combos` list built by `TripOptimizer.find_best_combinations` of
`trip_finder.py` before sorting: the cross product of the four segment lists
in `itertools.product` order, filtered by `validate_dates`, each entry carrying
the sum of the four prices. -/
def TripOptimizer.valid_combos (self : TripOptimizer)
    (seg1 seg2 seg3 seg4 : List Flight) :
    List (Flight × Flight × Flight × Flight × ℚ) :=
  seg1.flatMap fun f1 => seg2.flatMap fun f2 => seg3.flatMap fun f3 =>
    seg4.filterMap fun f4 =>
      if self.validate_dates f1.departure_date f2.departure_date
          f3.departure_date f4.departure_date then
        some (f1, f2, f3, f4, f1.price + f2.price + f3.price + f4.price)
      else
        none

/-- Embedding of `TripOptimizer.find_best_combinations` of `trip_finder.py`
(lines 48-74): build `valid_combos`, sort stably by total price
(`valid_combos.sort(key=lambda x: x[4])`), return `valid_combos[:top_n]`. -/
def TripOptimizer.find_best_combinations (self : TripOptimizer)
    (seg1 seg2 seg3 seg4 : List Flight) (top_n : Int) :
    List (Flight × Flight × Flight × Flight × ℚ) :=
  pySlice top_n (sortByKey price5 (self.valid_combos seg1 seg2 seg3 seg4))

/-- Characterisation of the 4-date validator as a conjunction of order and gap
constraints. -/
theorem root_validate_dates_iff (m1 m2 d1 d2 d3 d4 : Int) :
    (TripOptimizer.mk m1 m2).validate_dates d1 d2 d3 d4 = true ↔
      (d1 < d2 ∧ d2 < d3 ∧ d3 < d4 ∧ m1 ≤ d2 - d1 ∧ m2 ≤ d3 - d2) := by
  unfold TripOptimizer.validate_dates
  by_cases h1 : d1 < d2 ∧ d2 < d3 ∧ d3 < d4
  · rw [if_neg (not_not.mpr h1)]
    by_cases h2 : d2 - d1 < m1
    · rw [if_pos h2]
      simp only [Bool.false_eq_true, false_iff]
      intro hc
      omega
    · rw [if_neg h2]
      by_cases h3 : d3 - d2 < m2
      · rw [if_pos h3]
        simp only [Bool.false_eq_true, false_iff]
        intro hc
        omega
      · rw [if_neg h3]
        simp only [true_iff]
        omega
  · rw [if_pos h1]
    simp only [Bool.false_eq_true, false_iff]
    intro hc
    exact h1 ⟨hc.1, hc.2.1, hc.2.2.1⟩

end TripFinderRoot

/-! ### `trip_finder/trip_finder.py` (package): 2- or 3-segment chain optimizer -/

namespace TripFinderPkg

/-- Configuration of class `TripOptimizer` in `trip_finder/trip_finder.py`. -/
structure TripOptimizer where
  min_stopover1_days : Int
  min_stopover2_days : Int
deriving DecidableEq

/-- Embedding of `TripOptimizer.validate_dates` of `trip_finder/trip_finder.py`
(lines 28-76).  With `seg3_date = none` (single stopover) only `d1 < d2` and
the first gap are checked; with `seg3_date = some d3` (double stopover) the
first three dates must be strictly increasing and both gaps meet their
thresholds.  `seg4_date` is accepted but never read, exactly as in the
source. -/
def TripOptimizer.validate_dates (self : TripOptimizer)
    (seg1_date seg2_date : Int) (seg3_date seg4_date : Option Int) : Bool :=
  match seg3_date with
  | none =>
    if ¬ (seg1_date < seg2_date) then
      false
    else if seg2_date - seg1_date < self.min_stopover1_days then
      false
    else
      true
  | some d3 =>
    if ¬ (seg1_date < seg2_date ∧ seg2_date < d3) then
      false
    else if seg2_date - seg1_date < self.min_stopover1_days then
      false
    else if d3 - seg2_date < self.min_stopover2_days then
      false
    else
      true

/-- The `valid_combos` list built by `TripOptimizer.find_best_combinations` of
`trip_finder/trip_finder.py` before sorting.  An empty `seg3` (`if not seg3:`)
selects the 2-segment branch over `product(seg1, seg2)`; otherwise the
3-segment branch runs over `product(seg1, seg2, seg3)`.  `seg4` is accepted
but never iterated, exactly as in the source. -/
def TripOptimizer.valid_combos (self : TripOptimizer)
    (seg1 seg2 seg3 seg4 : List Flight) :
    List (Flight × Flight × Option Flight × Option Flight × ℚ) :=
  if seg3.isEmpty then
    seg1.flatMap fun f1 => seg2.filterMap fun f2 =>
      if self.validate_dates f1.departure_date f2.departure_date none none then
        some (f1, f2, none, none, f1.price + f2.price)
      else
        none
  else
    seg1.flatMap fun f1 => seg2.flatMap fun f2 =>
      seg3.filterMap fun f3 =>
        if self.validate_dates f1.departure_date f2.departure_date
            (some f3.departure_date) none then
          some (f1, f2, some f3, none, f1.price + f2.price + f3.price)
        else
          none

/-- Embedding of `TripOptimizer.find_best_combinations` of
`trip_finder/trip_finder.py` (lines 78-127): both branches build their
`valid_combos`, sort stably by total price and return `valid_combos[:top_n]`. -/
def TripOptimizer.find_best_combinations (self : TripOptimizer)
    (seg1 seg2 seg3 seg4 : List Flight) (top_n : Int) :
    List (Flight × Flight × Option Flight × Option Flight × ℚ) :=
  pySlice top_n (sortByKey price5 (self.valid_combos seg1 seg2 seg3 seg4))

/-- Characterisation of the 2-date (single-stopover) validator case. -/
theorem pkg_validate_dates_none_iff (m1 m2 d1 d2 : Int) :
    (TripOptimizer.mk m1 m2).validate_dates d1 d2 none none = true ↔
      (d1 < d2 ∧ m1 ≤ d2 - d1) := by
  unfold TripOptimizer.validate_dates
  by_cases h1 : d1 < d2
  · rw [if_neg (not_not.mpr h1)]
    by_cases h2 : d2 - d1 < m1
    · rw [if_pos h2]
      simp only [Bool.false_eq_true, false_iff]
      intro hc
      omega
    · rw [if_neg h2]
      simp only [true_iff]
      omega
  · rw [if_pos h1]
    simp only [Bool.false_eq_true, false_iff]
    intro hc
    exact h1 hc.1

/-- Characterisation of the 3-date (double-stopover) validator case; the
ignored fourth argument may be anything. -/
theorem pkg_validate_dates_some_iff (m1 m2 d1 d2 d3 : Int) (d4 : Option Int) :
    (TripOptimizer.mk m1 m2).validate_dates d1 d2 (some d3) d4 = true ↔
      (d1 < d2 ∧ d2 < d3 ∧ m1 ≤ d2 - d1 ∧ m2 ≤ d3 - d2) := by
  have hred : (TripOptimizer.mk m1 m2).validate_dates d1 d2 (some d3) d4 =
      (if ¬ (d1 < d2 ∧ d2 < d3) then false
       else if d2 - d1 < m1 then false
       else if d3 - d2 < m2 then false
       else true) := rfl
  rw [hred]
  by_cases h1 : d1 < d2 ∧ d2 < d3
  · rw [if_neg (not_not.mpr h1)]
    by_cases h2 : d2 - d1 < m1
    · rw [if_pos h2]
      simp only [Bool.false_eq_true, false_iff]
      intro hc
      omega
    · rw [if_neg h2]
      by_cases h3 : d3 - d2 < m2
      · rw [if_pos h3]
        simp only [Bool.false_eq_true, false_iff]
        intro hc
        omega
      · rw [if_neg h3]
        simp only [true_iff]
        omega
  · rw [if_pos h1]
    simp only [Bool.false_eq_true, false_iff]
    intro hc
    exact h1 ⟨hc.1, hc.2.1⟩

end TripFinderPkg

/-! ### `trip_finder_roundtrip.py` (repository root): round-trip-pair optimizer -/

namespace RoundTripRoot

/-- Configuration of class `RoundTripOptimizer` in `trip_finder_roundtrip.py`. -/
structure RoundTripOptimizer where
  min_stopover1_days : Int
  min_stopover2_days : Int
deriving DecidableEq

/-- Embedding of `RoundTripOptimizer.validate_dates` of
`trip_finder_roundtrip.py` (lines 25-60): both round trips are required; the
four dates must satisfy
`rt1.outbound < rt2.outbound < rt2.return < rt1.return` and the two gap
checks. -/
def RoundTripOptimizer.validate_dates (self : RoundTripOptimizer)
    (rt1 rt2 : RoundTripFlight) : Bool :=
  if ¬ (rt1.outbound_date < rt2.outbound_date ∧
        rt2.outbound_date < rt2.return_date ∧
        rt2.return_date < rt1.return_date) then
    false
  else if rt2.outbound_date - rt1.outbound_date < self.min_stopover1_days then
    false
  else if rt2.return_date - rt2.outbound_date < self.min_stopover2_days then
    false
  else
    true

/-- The `valid_combos` list built by
`RoundTripOptimizer.find_best_combinations` of `trip_finder_roundtrip.py`
before sorting: `product(rt1_flights, rt2_flights)` filtered by
`validate_dates`, each entry carrying the sum of the two total prices. -/
def RoundTripOptimizer.valid_combos (self : RoundTripOptimizer)
    (rt1_flights rt2_flights : List RoundTripFlight) :
    List (RoundTripFlight × RoundTripFlight × ℚ) :=
  rt1_flights.flatMap fun rt1 => rt2_flights.filterMap fun rt2 =>
    if self.validate_dates rt1 rt2 then
      some (rt1, rt2, rt1.total_price + rt2.total_price)
    else
      none

/-- Embedding of `RoundTripOptimizer.find_best_combinations` of
`trip_finder_roundtrip.py` (lines 62-95): build `valid_combos`, sort stably by
total price, return `valid_combos[:top_n]`. -/
def RoundTripOptimizer.find_best_combinations (self : RoundTripOptimizer)
    (rt1_flights rt2_flights : List RoundTripFlight) (top_n : Int) :
    List (RoundTripFlight × RoundTripFlight × ℚ) :=
  pySlice top_n (sortByKey price3 (self.valid_combos rt1_flights rt2_flights))

/-- Characterisation of the root round-trip-pair validator. -/
theorem rtroot_validate_dates_iff (m1 m2 : Int) (rt1 rt2 : RoundTripFlight) :
    (RoundTripOptimizer.mk m1 m2).validate_dates rt1 rt2 = true ↔
      (rt1.outbound_date < rt2.outbound_date ∧
       rt2.outbound_date < rt2.return_date ∧
       rt2.return_date < rt1.return_date ∧
       m1 ≤ rt2.outbound_date - rt1.outbound_date ∧
       m2 ≤ rt2.return_date - rt2.outbound_date) := by
  unfold RoundTripOptimizer.validate_dates
  by_cases h1 : rt1.outbound_date < rt2.outbound_date ∧
      rt2.outbound_date < rt2.return_date ∧ rt2.return_date < rt1.return_date
  · rw [if_neg (not_not.mpr h1)]
    by_cases h2 : rt2.outbound_date - rt1.outbound_date < m1
    · rw [if_pos h2]
      simp only [Bool.false_eq_true, false_iff]
      intro hc
      omega
    · rw [if_neg h2]
      by_cases h3 : rt2.return_date - rt2.outbound_date < m2
      · rw [if_pos h3]
        simp only [Bool.false_eq_true, false_iff]
        intro hc
        omega
      · rw [if_neg h3]
        simp only [true_iff]
        omega
  · rw [if_pos h1]
    simp only [Bool.false_eq_true, false_iff]
    intro hc
    exact h1 ⟨hc.1, hc.2.1, hc.2.2.1⟩

end RoundTripRoot

/-! ### `trip_finder/trip_finder_roundtrip.py` (package): one or two round trips -/

namespace RoundTripPkg

/-- Configuration of class `RoundTripOptimizer` in
`trip_finder/trip_finder_roundtrip.py`. -/
structure RoundTripOptimizer where
  min_stopover1_days : Int
  min_stopover2_days : Int
deriving DecidableEq

/-- Embedding of `RoundTripOptimizer.validate_dates` of
`trip_finder/trip_finder_roundtrip.py` (lines 62-103).  With `rt2 = none` only
`rt1.outbound_date < rt1.return_date` is required; with `rt2 = some _` the
four dates must satisfy the ordering chain and the two gap checks. -/
def RoundTripOptimizer.validate_dates (self : RoundTripOptimizer)
    (rt1 : RoundTripFlight) (rt2 : Option RoundTripFlight) : Bool :=
  match rt2 with
  | none => decide (rt1.outbound_date < rt1.return_date)
  | some rt2 =>
    if ¬ (rt1.outbound_date < rt2.outbound_date ∧
          rt2.outbound_date < rt2.return_date ∧
          rt2.return_date < rt1.return_date) then
      false
    else if rt2.outbound_date - rt1.outbound_date < self.min_stopover1_days then
      false
    else if rt2.return_date - rt2.outbound_date < self.min_stopover2_days then
      false
    else
      true

/-- The `valid_combos` list built by
`RoundTripOptimizer.find_best_combinations` of
`trip_finder/trip_finder_roundtrip.py` before sorting.  With an empty
`rt2_flights` list (`if not rt2_flights:`, lines 121-134) every `rt1`
candidate is appended as `(rt1, None, rt1.total_price)` WITHOUT any call to
`validate_dates`; otherwise `product(rt1_flights, rt2_flights)` is filtered by
`validate_dates`. -/
def RoundTripOptimizer.valid_combos (self : RoundTripOptimizer)
    (rt1_flights rt2_flights : List RoundTripFlight) :
    List (RoundTripFlight × Option RoundTripFlight × ℚ) :=
  if rt2_flights.isEmpty then
    rt1_flights.map fun rt1 => (rt1, none, rt1.total_price)
  else
    rt1_flights.flatMap fun rt1 => rt2_flights.filterMap fun rt2 =>
      if self.validate_dates rt1 (some rt2) then
        some (rt1, some rt2, rt1.total_price + rt2.total_price)
      else
        none

/-- Embedding of `RoundTripOptimizer.find_best_combinations` of
`trip_finder/trip_finder_roundtrip.py` (lines 105-153): build `valid_combos`,
sort stably by total price, return `valid_combos[:top_n]`. -/
def RoundTripOptimizer.find_best_combinations (self : RoundTripOptimizer)
    (rt1_flights rt2_flights : List RoundTripFlight) (top_n : Int) :
    List (RoundTripFlight × Option RoundTripFlight × ℚ) :=
  pySlice top_n (sortByKey price3 (self.valid_combos rt1_flights rt2_flights))

/-- Characterisation of the package round-trip-pair validator when the second
round trip is present. -/
theorem rtpkg_validate_dates_some_iff (m1 m2 : Int) (rt1 rt2 : RoundTripFlight) :
    (RoundTripOptimizer.mk m1 m2).validate_dates rt1 (some rt2) = true ↔
      (rt1.outbound_date < rt2.outbound_date ∧
       rt2.outbound_date < rt2.return_date ∧
       rt2.return_date < rt1.return_date ∧
       m1 ≤ rt2.outbound_date - rt1.outbound_date ∧
       m2 ≤ rt2.return_date - rt2.outbound_date) := by
  have hred : (RoundTripOptimizer.mk m1 m2).validate_dates rt1 (some rt2) =
      (if ¬ (rt1.outbound_date < rt2.outbound_date ∧
             rt2.outbound_date < rt2.return_date ∧
             rt2.return_date < rt1.return_date) then false
       else if rt2.outbound_date - rt1.outbound_date < m1 then false
       else if rt2.return_date - rt2.outbound_date < m2 then false
       else true) := rfl
  rw [hred]
  by_cases h1 : rt1.outbound_date < rt2.outbound_date ∧
      rt2.outbound_date < rt2.return_date ∧ rt2.return_date < rt1.return_date
  · rw [if_neg (not_not.mpr h1)]
    by_cases h2 : rt2.outbound_date - rt1.outbound_date < m1
    · rw [if_pos h2]
      simp only [Bool.false_eq_true, false_iff]
      intro hc
      omega
    · rw [if_neg h2]
      by_cases h3 : rt2.return_date - rt2.outbound_date < m2
      · rw [if_pos h3]
        simp only [Bool.false_eq_true, false_iff]
        intro hc
        omega
      · rw [if_neg h3]
        simp only [true_iff]
        omega
  · rw [if_pos h1]
    simp only [Bool.false_eq_true, false_iff]
    intro hc
    exact h1 ⟨hc.1, hc.2.1, hc.2.2.1⟩

/-- Characterisation of the package round-trip validator when the second round
trip is absent: only the strict ordering of the single round trip's dates is
required. -/
theorem rtpkg_validate_dates_none_iff (m1 m2 : Int) (rt1 : RoundTripFlight) :
    (RoundTripOptimizer.mk m1 m2).validate_dates rt1 none = true ↔
      rt1.outbound_date < rt1.return_date := by
  simp [RoundTripOptimizer.validate_dates]

end RoundTripPkg

/-! ### Generic facts about the sort-and-slice pipeline shared by all searches -/

/-- Every element of a sliced sorted list comes from the underlying list. -/
theorem mem_of_mem_pySlice_sortByKey {α : Type} {key : α → ℚ} {n : Int}
    {l : List α} {c : α} (h : c ∈ pySlice n (sortByKey key l)) : c ∈ l :=
  mem_sortByKey.mp ((pySlice_sublist n (sortByKey key l)).subset h)

/-- A sliced sorted list is sorted (pairwise non-decreasing keys). -/
theorem pairwise_pySlice_sortByKey {α : Type} (key : α → ℚ) (n : Int)
    (l : List α) :
    (pySlice n (sortByKey key l)).Pairwise (fun a b => key a ≤ key b) :=
  (pairwise_sortByKey key l).sublist (pySlice_sublist n (sortByKey key l))

/-- Stability through slicing: within one price class, a sliced sorted list is
a prefix of the input list restricted to that class. -/
theorem filter_pySlice_sortByKey_isPrefix {α : Type} (key : α → ℚ) (n : Int)
    (l : List α) (p : ℚ) :
    (pySlice n (sortByKey key l)).filter (fun a => key a = p) <+:
      l.filter (fun a => key a = p) := by
  have h2 := filter_isPrefix_of_isPrefix (fun a => decide (key a = p))
    (pySlice_isPrefix n (sortByKey key l))
  rw [filter_sortByKey] at h2
  exact h2

/-! ### Claim theorems -/

/-- C2: for 2, 3 or 4 well-formed dates supplied to the segment-chain
validator, `validate_dates` returns `False` whenever the supplied dates are
not strictly increasing, for every configuration of the two minimum-stay
thresholds (including both thresholds equal to 0). -/
theorem C2_validator_rejects_non_increasing (m1 m2 d1 d2 d3 d4 : Int) :
    (¬ d1 < d2 →
      (TripFinderPkg.TripOptimizer.mk m1 m2).validate_dates d1 d2 none none
        = false) ∧
    (¬ (d1 < d2 ∧ d2 < d3) →
      (TripFinderPkg.TripOptimizer.mk m1 m2).validate_dates d1 d2 (some d3) none
        = false) ∧
    (¬ (d1 < d2 ∧ d2 < d3 ∧ d3 < d4) →
      (TripFinderRoot.TripOptimizer.mk m1 m2).validate_dates d1 d2 d3 d4
        = false) := by
  refine ⟨?_, ?_, ?_⟩ <;> intro h
  · have := TripFinderPkg.pkg_validate_dates_none_iff m1 m2 d1 d2
    cases hb : (TripFinderPkg.TripOptimizer.mk m1 m2).validate_dates d1 d2 none none
    · rfl
    · exact absurd (this.mp hb).1 h
  · have := TripFinderPkg.pkg_validate_dates_some_iff m1 m2 d1 d2 d3 none
    cases hb : (TripFinderPkg.TripOptimizer.mk m1 m2).validate_dates d1 d2 (some d3) none
    · rfl
    · exact absurd ⟨(this.mp hb).1, (this.mp hb).2.1⟩ h
  · have := TripFinderRoot.root_validate_dates_iff m1 m2 d1 d2 d3 d4
    cases hb : (TripFinderRoot.TripOptimizer.mk m1 m2).validate_dates d1 d2 d3 d4
    · rfl
    · exact absurd ⟨(this.mp hb).1, (this.mp hb).2.1, (this.mp hb).2.2.1⟩ h

/-- Witness for C2 at equal dates and zero thresholds: all three validator
arities reject a constant date sequence. -/
theorem C2_validator_rejects_non_increasing_witness :
    (TripFinderPkg.TripOptimizer.mk 0 0).validate_dates 36 36 none none = false ∧
    (TripFinderPkg.TripOptimizer.mk 0 0).validate_dates 36 36 (some 36) none = false ∧
    (TripFinderRoot.TripOptimizer.mk 0 0).validate_dates 36 36 36 36 = false :=
  ⟨(C2_validator_rejects_non_increasing 0 0 36 36 36 36).1 (by decide),
   (C2_validator_rejects_non_increasing 0 0 36 36 36 36).2.1 (by decide),
   (C2_validator_rejects_non_increasing 0 0 36 36 36 36).2.2 (by decide)⟩

/-- C4 (Scenario A): with thresholds 4 and 10 and four singleton segment
lists dated 2026-02-05 / 2026-02-10 / 2026-02-21 / 2026-02-26 (encoded as day
numbers 36 / 41 / 52 / 57) with prices 500, 100, 120, 480, the 4-segment
search returns exactly one combination whose total price is 1200. -/
theorem C4_scenarioA_single_result_1200 :
    ((TripFinderRoot.TripOptimizer.mk 4 10).find_best_combinations
      [⟨"LHR", "HKG", 36, 500, "BA", "10:00", "18:00", "12h", 0, ""⟩]
      [⟨"HKG", "TPE", 41, 100, "CX", "08:00", "10:00", "2h", 0, ""⟩]
      [⟨"TPE", "HKG", 52, 120, "CX", "14:00", "16:00", "2h", 0, ""⟩]
      [⟨"HKG", "LHR", 57, 480, "BA", "20:00", "06:00", "13h", 0, ""⟩]
      10).map price5 = [1200] := by
  norm_num [TripFinderRoot.TripOptimizer.find_best_combinations,
    TripFinderRoot.TripOptimizer.valid_combos,
    TripFinderRoot.TripOptimizer.validate_dates,
    sortByKey, insertByKey, pySlice, price5]

/-- C6: the round-trip-pair validator (in both the root and the package
module) accepts `rt1, rt2` exactly when the four dates are nested in the
order `rt1.outbound < rt2.outbound < rt2.return < rt1.return` and the two
stopover gaps meet their thresholds. -/
theorem C6_pair_validator_iff (m1 m2 : Int) (rt1 rt2 : RoundTripFlight) :
    ((RoundTripRoot.RoundTripOptimizer.mk m1 m2).validate_dates rt1 rt2 = true ↔
      (rt1.outbound_date < rt2.outbound_date ∧
       rt2.outbound_date < rt2.return_date ∧
       rt2.return_date < rt1.return_date ∧
       m1 ≤ rt2.outbound_date - rt1.outbound_date ∧
       m2 ≤ rt2.return_date - rt2.outbound_date)) ∧
    ((RoundTripPkg.RoundTripOptimizer.mk m1 m2).validate_dates rt1 (some rt2) = true ↔
      (rt1.outbound_date < rt2.outbound_date ∧
       rt2.outbound_date < rt2.return_date ∧
       rt2.return_date < rt1.return_date ∧
       m1 ≤ rt2.outbound_date - rt1.outbound_date ∧
       m2 ≤ rt2.return_date - rt2.outbound_date)) :=
  ⟨RoundTripRoot.rtroot_validate_dates_iff m1 m2 rt1 rt2,
   RoundTripPkg.rtpkg_validate_dates_some_iff m1 m2 rt1 rt2⟩

/-- C7: in the two-date (single-stopover) case the segment-chain validator
accepts exactly when `d1 < d2` and the gap meets the first threshold, and the
second threshold has no effect on the outcome. -/
theorem C7_two_date_case (m1 m2 m2' d1 d2 : Int) :
    ((TripFinderPkg.TripOptimizer.mk m1 m2).validate_dates d1 d2 none none = true ↔
      (d1 < d2 ∧ m1 ≤ d2 - d1)) ∧
    ((TripFinderPkg.TripOptimizer.mk m1 m2).validate_dates d1 d2 none none =
      (TripFinderPkg.TripOptimizer.mk m1 m2').validate_dates d1 d2 none none) := by
  constructor
  · exact TripFinderPkg.pkg_validate_dates_none_iff m1 m2 d1 d2
  · cases hb : (TripFinderPkg.TripOptimizer.mk m1 m2').validate_dates d1 d2 none none
    · cases hb' : (TripFinderPkg.TripOptimizer.mk m1 m2).validate_dates d1 d2 none none
      · rfl
      · exact absurd ((TripFinderPkg.pkg_validate_dates_none_iff m1 m2' d1 d2).mpr
          ((TripFinderPkg.pkg_validate_dates_none_iff m1 m2 d1 d2).mp hb')) (by simp [hb])
    · exact (TripFinderPkg.pkg_validate_dates_none_iff m1 m2 d1 d2).mpr
        ((TripFinderPkg.pkg_validate_dates_none_iff m1 m2' d1 d2).mp hb)

/-- C10: in the 4-segment optimizer the final boundary is constrained only by
strict ordering: whenever the first three dates pass their checks, a fourth
date exactly one day after the third is accepted, for every configuration of
both thresholds. -/
theorem C10_no_threshold_on_final_gap (m1 m2 d1 d2 d3 : Int)
    (h1 : d1 < d2) (h2 : d2 < d3) (h3 : m1 ≤ d2 - d1) (h4 : m2 ≤ d3 - d2) :
    (TripFinderRoot.TripOptimizer.mk m1 m2).validate_dates d1 d2 d3 (d3 + 1)
      = true :=
  (TripFinderRoot.root_validate_dates_iff m1 m2 d1 d2 d3 (d3 + 1)).mpr (by omega)

/-- Witness for C10: thresholds 4 and 10, dates 36 / 41 / 52 / 53 — the
one-day final gap is accepted. -/
theorem C10_no_threshold_on_final_gap_witness :
    (TripFinderRoot.TripOptimizer.mk 4 10).validate_dates 36 41 52 53 = true :=
  C10_no_threshold_on_final_gap 4 10 36 41 52 (by decide) (by decide)
    (by decide) (by decide)

/-- C1: in round-trip-pair mode with an empty `rt2` list the search appends
every `rt1` candidate without calling the validator.  A candidate whose
outbound and return dates are equal is returned as a singleton combination
carrying its own total price, even though the single-round-trip case of
`validate_dates` rejects exactly that candidate — contradicting the claim
(and Scenario E), which demand 0 results for it. -/
theorem C1_single_rt_path_skips_validator :
    ((RoundTripPkg.RoundTripOptimizer.mk 4 10).find_best_combinations
        [⟨"LHR", "HKG", 36, 36, 1000, "BA", "BA", "10:00", "18:00", "12h", 0,
          "20:00", "06:00", "13h", 0, ""⟩] [] 10).map price3 = [1000] ∧
    (RoundTripPkg.RoundTripOptimizer.mk 4 10).validate_dates
        ⟨"LHR", "HKG", 36, 36, 1000, "BA", "BA", "10:00", "18:00", "12h", 0,
          "20:00", "06:00", "13h", 0, ""⟩ none = false := by
  constructor
  · norm_num [RoundTripPkg.RoundTripOptimizer.find_best_combinations,
      RoundTripPkg.RoundTripOptimizer.valid_combos,
      sortByKey, insertByKey, pySlice, price3]
  · decide

/-- C5: the single-round-trip path of the package round-trip search accepts a
candidate whose dates are strictly decreasing (outbound day 40, return day
36), so the accepted combination's dates are not strictly increasing in
itinerary order — the ordering invariant fails on this path. -/
theorem C5_unvalidated_combination_breaks_ordering :
    ((RoundTripPkg.RoundTripOptimizer.mk 0 0).find_best_combinations
        [⟨"LHR", "HKG", 40, 36, 999, "BA", "BA", "10:00", "18:00", "12h", 0,
          "20:00", "06:00", "13h", 0, ""⟩] [] 10) =
      [(⟨"LHR", "HKG", 40, 36, 999, "BA", "BA", "10:00", "18:00", "12h", 0,
          "20:00", "06:00", "13h", 0, ""⟩, none, 999)] ∧
    ¬ ((40 : Int) < 36) := by
  constructor
  · norm_num [RoundTripPkg.RoundTripOptimizer.find_best_combinations,
      RoundTripPkg.RoundTripOptimizer.valid_combos,
      sortByKey, insertByKey, pySlice]
  · decide

/-- Behaviour of the sort-then-slice pipeline for one search: non-negative
`top_n` takes a prefix of the sorted list, `0` yields the empty list, a bound
at least the number of valid combinations yields the whole sorted list, and a
negative bound drops that many entries from the end (Python slice
semantics). -/
theorem pySlice_sortByKey_spec {α : Type} (key : α → ℚ) (l : List α) (n : Int) :
    (0 ≤ n → pySlice n (sortByKey key l) = (sortByKey key l).take n.toNat) ∧
    (pySlice 0 (sortByKey key l) = []) ∧
    ((l.length : Int) ≤ n → pySlice n (sortByKey key l) = sortByKey key l) ∧
    (n < 0 → pySlice n (sortByKey key l) =
      (sortByKey key l).take ((l.length : Int) + n).toNat) := by
  refine ⟨fun h => pySlice_nonneg _ h, pySlice_zero _, fun h => ?_, fun h => ?_⟩
  · exact pySlice_of_length_le _ (by rw [length_sortByKey]; exact h)
  · have h' := pySlice_neg (sortByKey key l) h
    rw [length_sortByKey] at h'
    exact h'

/-- C3 counterexample: with a negative `top_n` the returned result is NOT
empty.  Two valid single-stopover combinations exist (prices 600 and 590) and
`top_n = -1`, a value `≤ 0`, returns one of them (`valid_combos[:-1]` drops
only the last entry), refuting the claim that `top_n <= 0` yields an empty
result. -/
theorem C3_counterexample_negative_top_n :
    ((-1 : Int) ≤ 0) ∧
    ((TripFinderPkg.TripOptimizer.mk 4 10).find_best_combinations
        [⟨"LHR", "HKG", 36, 500, "BA", "10:00", "18:00", "12h", 0, ""⟩]
        [⟨"HKG", "LHR", 41, 100, "CX", "08:00", "10:00", "2h", 0, ""⟩,
         ⟨"HKG", "LHR", 42, 90, "CX", "08:00", "10:00", "2h", 0, ""⟩]
        [] [] (-1)) ≠ [] := by
  constructor
  · decide
  · norm_num [TripFinderPkg.TripOptimizer.find_best_combinations,
      TripFinderPkg.TripOptimizer.valid_combos,
      TripFinderPkg.TripOptimizer.validate_dates,
      sortByKey, insertByKey, pySlice, price5]

/-- C3 amended: each search returns `valid_combos[:top_n]` of the price-sorted
list under Python slice semantics — for `0 ≤ top_n` the first `top_n` sorted
entries (`top_n = 0` yields the empty result, and `top_n` at least the number
of valid combinations yields the whole sorted set), while a negative `top_n`
drops the last `-top_n` sorted entries (empty only when `-top_n` is at least
the number of valid combinations). -/
theorem C3_ranker_slice_semantics (m1 m2 : Int) (seg1 seg2 seg3 seg4 : List Flight)
    (rt1s rt2s : List RoundTripFlight) (n : Int) :
    ((0 ≤ n →
      (TripFinderRoot.TripOptimizer.mk m1 m2).find_best_combinations
          seg1 seg2 seg3 seg4 n =
        (sortByKey price5 ((TripFinderRoot.TripOptimizer.mk m1 m2).valid_combos
          seg1 seg2 seg3 seg4)).take n.toNat) ∧
     ((TripFinderRoot.TripOptimizer.mk m1 m2).find_best_combinations
          seg1 seg2 seg3 seg4 0 = []) ∧
     ((((TripFinderRoot.TripOptimizer.mk m1 m2).valid_combos
          seg1 seg2 seg3 seg4).length : Int) ≤ n →
      (TripFinderRoot.TripOptimizer.mk m1 m2).find_best_combinations
          seg1 seg2 seg3 seg4 n =
        sortByKey price5 ((TripFinderRoot.TripOptimizer.mk m1 m2).valid_combos
          seg1 seg2 seg3 seg4)) ∧
     (n < 0 →
      (TripFinderRoot.TripOptimizer.mk m1 m2).find_best_combinations
          seg1 seg2 seg3 seg4 n =
        (sortByKey price5 ((TripFinderRoot.TripOptimizer.mk m1 m2).valid_combos
          seg1 seg2 seg3 seg4)).take
          ((((TripFinderRoot.TripOptimizer.mk m1 m2).valid_combos
            seg1 seg2 seg3 seg4).length : Int) + n).toNat)) ∧
    ((0 ≤ n →
      (TripFinderPkg.TripOptimizer.mk m1 m2).find_best_combinations
          seg1 seg2 seg3 seg4 n =
        (sortByKey price5 ((TripFinderPkg.TripOptimizer.mk m1 m2).valid_combos
          seg1 seg2 seg3 seg4)).take n.toNat) ∧
     ((TripFinderPkg.TripOptimizer.mk m1 m2).find_best_combinations
          seg1 seg2 seg3 seg4 0 = []) ∧
     ((((TripFinderPkg.TripOptimizer.mk m1 m2).valid_combos
          seg1 seg2 seg3 seg4).length : Int) ≤ n →
      (TripFinderPkg.TripOptimizer.mk m1 m2).find_best_combinations
          seg1 seg2 seg3 seg4 n =
        sortByKey price5 ((TripFinderPkg.TripOptimizer.mk m1 m2).valid_combos
          seg1 seg2 seg3 seg4)) ∧
     (n < 0 →
      (TripFinderPkg.TripOptimizer.mk m1 m2).find_best_combinations
          seg1 seg2 seg3 seg4 n =
        (sortByKey price5 ((TripFinderPkg.TripOptimizer.mk m1 m2).valid_combos
          seg1 seg2 seg3 seg4)).take
          ((((TripFinderPkg.TripOptimizer.mk m1 m2).valid_combos
            seg1 seg2 seg3 seg4).length : Int) + n).toNat)) ∧
    ((0 ≤ n →
      (RoundTripPkg.RoundTripOptimizer.mk m1 m2).find_best_combinations
          rt1s rt2s n =
        (sortByKey price3 ((RoundTripPkg.RoundTripOptimizer.mk m1 m2).valid_combos
          rt1s rt2s)).take n.toNat) ∧
     ((RoundTripPkg.RoundTripOptimizer.mk m1 m2).find_best_combinations
          rt1s rt2s 0 = []) ∧
     ((((RoundTripPkg.RoundTripOptimizer.mk m1 m2).valid_combos
          rt1s rt2s).length : Int) ≤ n →
      (RoundTripPkg.RoundTripOptimizer.mk m1 m2).find_best_combinations
          rt1s rt2s n =
        sortByKey price3 ((RoundTripPkg.RoundTripOptimizer.mk m1 m2).valid_combos
          rt1s rt2s)) ∧
     (n < 0 →
      (RoundTripPkg.RoundTripOptimizer.mk m1 m2).find_best_combinations
          rt1s rt2s n =
        (sortByKey price3 ((RoundTripPkg.RoundTripOptimizer.mk m1 m2).valid_combos
          rt1s rt2s)).take
          ((((RoundTripPkg.RoundTripOptimizer.mk m1 m2).valid_combos
            rt1s rt2s).length : Int) + n).toNat)) :=
  ⟨pySlice_sortByKey_spec price5
      ((TripFinderRoot.TripOptimizer.mk m1 m2).valid_combos seg1 seg2 seg3 seg4) n,
   pySlice_sortByKey_spec price5
      ((TripFinderPkg.TripOptimizer.mk m1 m2).valid_combos seg1 seg2 seg3 seg4) n,
   pySlice_sortByKey_spec price3
      ((RoundTripPkg.RoundTripOptimizer.mk m1 m2).valid_combos rt1s rt2s) n⟩

/-- Witness for C3 (amended): the slice equations instantiated on concrete
(empty) inputs, at `top_n = 5`, `0` and `-1`. -/
theorem C3_ranker_slice_semantics_witness :
    ((TripFinderRoot.TripOptimizer.mk 4 10).find_best_combinations [] [] [] [] 5 =
      (sortByKey price5 ((TripFinderRoot.TripOptimizer.mk 4 10).valid_combos
        [] [] [] [])).take (5 : Int).toNat) ∧
    ((TripFinderRoot.TripOptimizer.mk 4 10).find_best_combinations [] [] [] [] 0 = []) ∧
    ((TripFinderRoot.TripOptimizer.mk 4 10).find_best_combinations [] [] [] [] 5 =
      sortByKey price5 ((TripFinderRoot.TripOptimizer.mk 4 10).valid_combos [] [] [] [])) ∧
    ((TripFinderRoot.TripOptimizer.mk 4 10).find_best_combinations [] [] [] [] (-1) =
      (sortByKey price5 ((TripFinderRoot.TripOptimizer.mk 4 10).valid_combos
        [] [] [] [])).take ((((TripFinderRoot.TripOptimizer.mk 4 10).valid_combos
        [] [] [] []).length : Int) + (-1)).toNat) ∧
    ((TripFinderPkg.TripOptimizer.mk 4 10).find_best_combinations [] [] [] [] 5 =
      (sortByKey price5 ((TripFinderPkg.TripOptimizer.mk 4 10).valid_combos
        [] [] [] [])).take (5 : Int).toNat) ∧
    ((TripFinderPkg.TripOptimizer.mk 4 10).find_best_combinations [] [] [] [] 0 = []) ∧
    ((TripFinderPkg.TripOptimizer.mk 4 10).find_best_combinations [] [] [] [] 5 =
      sortByKey price5 ((TripFinderPkg.TripOptimizer.mk 4 10).valid_combos [] [] [] [])) ∧
    ((TripFinderPkg.TripOptimizer.mk 4 10).find_best_combinations [] [] [] [] (-1) =
      (sortByKey price5 ((TripFinderPkg.TripOptimizer.mk 4 10).valid_combos
        [] [] [] [])).take ((((TripFinderPkg.TripOptimizer.mk 4 10).valid_combos
        [] [] [] []).length : Int) + (-1)).toNat) ∧
    ((RoundTripPkg.RoundTripOptimizer.mk 4 10).find_best_combinations [] [] 5 =
      (sortByKey price3 ((RoundTripPkg.RoundTripOptimizer.mk 4 10).valid_combos
        [] [])).take (5 : Int).toNat) ∧
    ((RoundTripPkg.RoundTripOptimizer.mk 4 10).find_best_combinations [] [] 0 = []) ∧
    ((RoundTripPkg.RoundTripOptimizer.mk 4 10).find_best_combinations [] [] 5 =
      sortByKey price3 ((RoundTripPkg.RoundTripOptimizer.mk 4 10).valid_combos [] [])) ∧
    ((RoundTripPkg.RoundTripOptimizer.mk 4 10).find_best_combinations [] [] (-1) =
      (sortByKey price3 ((RoundTripPkg.RoundTripOptimizer.mk 4 10).valid_combos
        [] [])).take ((((RoundTripPkg.RoundTripOptimizer.mk 4 10).valid_combos
        [] []).length : Int) + (-1)).toNat) :=
  have h5 := C3_ranker_slice_semantics 4 10 [] [] [] [] [] [] 5
  have hneg := C3_ranker_slice_semantics 4 10 [] [] [] [] [] [] (-1)
  ⟨h5.1.1 (by decide), h5.1.2.1, h5.1.2.2.1 (by decide), hneg.1.2.2.2 (by decide),
   h5.2.1.1 (by decide), h5.2.1.2.1, h5.2.1.2.2.1 (by decide), hneg.2.1.2.2.2 (by decide),
   h5.2.2.1 (by decide), h5.2.2.2.1, h5.2.2.2.2.1 (by decide), hneg.2.2.2.2.2 (by decide)⟩

/-- C8: every returned result list is sorted by ascending total price, and the
sort is stable: within each price class, the result is a prefix of the valid
combinations in the order the combination search produced them. -/
theorem C8_results_sorted_and_stable (m1 m2 : Int)
    (seg1 seg2 seg3 seg4 : List Flight)
    (rt1s rt2s : List RoundTripFlight) (n : Int) :
    (((TripFinderRoot.TripOptimizer.mk m1 m2).find_best_combinations
        seg1 seg2 seg3 seg4 n).Pairwise (fun a b => price5 a ≤ price5 b)) ∧
    (∀ p : ℚ,
      ((TripFinderRoot.TripOptimizer.mk m1 m2).find_best_combinations
          seg1 seg2 seg3 seg4 n).filter (fun c => price5 c = p) <+:
        ((TripFinderRoot.TripOptimizer.mk m1 m2).valid_combos
          seg1 seg2 seg3 seg4).filter (fun c => price5 c = p)) ∧
    (((TripFinderPkg.TripOptimizer.mk m1 m2).find_best_combinations
        seg1 seg2 seg3 seg4 n).Pairwise (fun a b => price5 a ≤ price5 b)) ∧
    (∀ p : ℚ,
      ((TripFinderPkg.TripOptimizer.mk m1 m2).find_best_combinations
          seg1 seg2 seg3 seg4 n).filter (fun c => price5 c = p) <+:
        ((TripFinderPkg.TripOptimizer.mk m1 m2).valid_combos
          seg1 seg2 seg3 seg4).filter (fun c => price5 c = p)) ∧
    (((RoundTripPkg.RoundTripOptimizer.mk m1 m2).find_best_combinations
        rt1s rt2s n).Pairwise (fun a b => price3 a ≤ price3 b)) ∧
    (∀ p : ℚ,
      ((RoundTripPkg.RoundTripOptimizer.mk m1 m2).find_best_combinations
          rt1s rt2s n).filter (fun c => price3 c = p) <+:
        ((RoundTripPkg.RoundTripOptimizer.mk m1 m2).valid_combos
          rt1s rt2s).filter (fun c => price3 c = p)) :=
  ⟨pairwise_pySlice_sortByKey price5 n
      ((TripFinderRoot.TripOptimizer.mk m1 m2).valid_combos seg1 seg2 seg3 seg4),
   fun p => filter_pySlice_sortByKey_isPrefix price5 n
      ((TripFinderRoot.TripOptimizer.mk m1 m2).valid_combos seg1 seg2 seg3 seg4) p,
   pairwise_pySlice_sortByKey price5 n
      ((TripFinderPkg.TripOptimizer.mk m1 m2).valid_combos seg1 seg2 seg3 seg4),
   fun p => filter_pySlice_sortByKey_isPrefix price5 n
      ((TripFinderPkg.TripOptimizer.mk m1 m2).valid_combos seg1 seg2 seg3 seg4) p,
   pairwise_pySlice_sortByKey price3 n
      ((RoundTripPkg.RoundTripOptimizer.mk m1 m2).valid_combos rt1s rt2s),
   fun p => filter_pySlice_sortByKey_isPrefix price3 n
      ((RoundTripPkg.RoundTripOptimizer.mk m1 m2).valid_combos rt1s rt2s) p⟩

/-- C9: every combination emitted by a search carries a total price equal to
the exact sum of the price (resp. total price) fields of its constituent
records, with no other arithmetic applied. -/
theorem C9_total_price_is_sum (m1 m2 : Int)
    (seg1 seg2 seg3 seg4 : List Flight)
    (rt1s rt2s : List RoundTripFlight) (n : Int) :
    (∀ c ∈ (TripFinderRoot.TripOptimizer.mk m1 m2).find_best_combinations
        seg1 seg2 seg3 seg4 n,
      price5 c = c.1.price + c.2.1.price + c.2.2.1.price + c.2.2.2.1.price) ∧
    (∀ c ∈ (TripFinderPkg.TripOptimizer.mk m1 m2).find_best_combinations
        seg1 seg2 seg3 seg4 n,
      price5 c = c.1.price + c.2.1.price + optFlightPrice c.2.2.1 +
        optFlightPrice c.2.2.2.1) ∧
    (∀ c ∈ (RoundTripPkg.RoundTripOptimizer.mk m1 m2).find_best_combinations
        rt1s rt2s n,
      price3 c = c.1.total_price + optRTPrice c.2.1) := by
  refine ⟨?_, ?_, ?_⟩
  · intro c hc
    have hv : c ∈ (TripFinderRoot.TripOptimizer.mk m1 m2).valid_combos
        seg1 seg2 seg3 seg4 := mem_of_mem_pySlice_sortByKey hc
    simp only [TripFinderRoot.TripOptimizer.valid_combos, List.mem_flatMap,
      List.mem_filterMap] at hv
    obtain ⟨f1, hf1, f2, hf2, f3, hf3, f4, hf4, hif⟩ := hv
    split at hif
    · cases Option.some.inj hif
      rfl
    · exact Option.noConfusion hif
  · intro c hc
    have hv : c ∈ (TripFinderPkg.TripOptimizer.mk m1 m2).valid_combos
        seg1 seg2 seg3 seg4 := mem_of_mem_pySlice_sortByKey hc
    unfold TripFinderPkg.TripOptimizer.valid_combos at hv
    split at hv
    · simp only [List.mem_flatMap, List.mem_filterMap] at hv
      obtain ⟨f1, hf1, f2, hf2, hif⟩ := hv
      split at hif
      · cases Option.some.inj hif
        simp [price5, optFlightPrice]
      · exact Option.noConfusion hif
    · simp only [List.mem_flatMap, List.mem_filterMap] at hv
      obtain ⟨f1, hf1, f2, hf2, f3, hf3, hif⟩ := hv
      split at hif
      · cases Option.some.inj hif
        simp [price5, optFlightPrice]
      · exact Option.noConfusion hif
  · intro c hc
    have hv : c ∈ (RoundTripPkg.RoundTripOptimizer.mk m1 m2).valid_combos
        rt1s rt2s := mem_of_mem_pySlice_sortByKey hc
    unfold RoundTripPkg.RoundTripOptimizer.valid_combos at hv
    split at hv
    · simp only [List.mem_map] at hv
      obtain ⟨rt1, hrt1, rfl⟩ := hv
      simp [price3, optRTPrice]
    · simp only [List.mem_flatMap, List.mem_filterMap] at hv
      obtain ⟨rt1, hrt1, rt2, hrt2, hif⟩ := hv
      split at hif
      · cases Option.some.inj hif
        simp [price3, optRTPrice]
      · exact Option.noConfusion hif

/-- Witness for C9: the scenario-A combination returned by the 4-segment
search carries total price `500 + 100 + 120 + 480`. -/
theorem C9_total_price_is_sum_witness :
    price5 ((⟨"LHR", "HKG", 36, 500, "BA", "10:00", "18:00", "12h", 0, ""⟩ : Flight),
            (⟨"HKG", "TPE", 41, 100, "CX", "08:00", "10:00", "2h", 0, ""⟩ : Flight),
            (⟨"TPE", "HKG", 52, 120, "CX", "14:00", "16:00", "2h", 0, ""⟩ : Flight),
            (⟨"HKG", "LHR", 57, 480, "BA", "20:00", "06:00", "13h", 0, ""⟩ : Flight),
            (500 : ℚ) + 100 + 120 + 480) = (500 : ℚ) + 100 + 120 + 480 :=
  (C9_total_price_is_sum 4 10
      [⟨"LHR", "HKG", 36, 500, "BA", "10:00", "18:00", "12h", 0, ""⟩]
      [⟨"HKG", "TPE", 41, 100, "CX", "08:00", "10:00", "2h", 0, ""⟩]
      [⟨"TPE", "HKG", 52, 120, "CX", "14:00", "16:00", "2h", 0, ""⟩]
      [⟨"HKG", "LHR", 57, 480, "BA", "20:00", "06:00", "13h", 0, ""⟩]
      [] [] 10).1
    (⟨"LHR", "HKG", 36, 500, "BA", "10:00", "18:00", "12h", 0, ""⟩,
     ⟨"HKG", "TPE", 41, 100, "CX", "08:00", "10:00", "2h", 0, ""⟩,
     ⟨"TPE", "HKG", 52, 120, "CX", "14:00", "16:00", "2h", 0, ""⟩,
     ⟨"HKG", "LHR", 57, 480, "BA", "20:00", "06:00", "13h", 0, ""⟩,
     (500 : ℚ) + 100 + 120 + 480)
    (by simp [TripFinderRoot.TripOptimizer.find_best_combinations,
      TripFinderRoot.TripOptimizer.valid_combos,
      TripFinderRoot.TripOptimizer.validate_dates,
      sortByKey, insertByKey, pySlice])
